import Mathlib

/-!
Verification of the FPL captain-recommendation data layer
(`fpl_captain_system.py`, class `FPLCaptainRecommender`).

The Python code is shallowly embedded as follows:

* Raw upstream JSON records (bootstrap catalog entries, fixtures, picks)
  become Lean structures carrying exactly the fields the code reads.
* Python strings become `List Char`; Python ints become `ℤ`; Python floats
  become `ℚ` (an exact idealization of the decimal values the upstream API
  serialises as strings, matching the "no precision loss" reading).
* The mutable cache fields of the recommender instance become an explicit
  `ClientState` record threaded through each method; HTTP responses and the
  model call become an explicit `World` record, with `Except` for
  request/LLM failures (Python exceptions).
* Python dicts built by insertion become association lists built with
  `dictInsert` (last write wins, first-insertion iteration order), which is
  exactly CPython dict semantics for the operations the code performs.
* `json.loads` is embedded as a fuel-based recursive-descent parser for the
  standard JSON grammar (`parseJson`); `None` models a raised
  `json.JSONDecodeError`.  The regex fallback `re.search(r'\x7b.*\x7d', s,
  re.DOTALL)` is embedded as `extractBraces` (first `{` through last `}`).
-/

namespace FPLCaptain

/-! ## JSON values and a model of `json.loads` -/

/-- A JSON value, the result type of the embedded `json.loads`. -/
inductive JVal where
  | null
  | bool (b : Bool)
  | num (q : ℚ)
  | str (s : List Char)
  | arr (xs : List JVal)
  | obj (kvs : List (List Char × JVal))

/-- JSON whitespace, as accepted between tokens by `json.loads`. -/
def isJsonWs (c : Char) : Bool :=
  c = ' ' || c = '\t' || c = '\n' || c = '\r'

/-- Skip JSON whitespace. -/
def skipWs (s : List Char) : List Char := s.dropWhile isJsonWs

/-- Base-10 value of a digit string, accumulated left to right (the way a
scanning parser builds it). -/
def digitsToNat (s : List Char) : ℕ :=
  s.foldl (fun a c => 10 * a + (c.toNat - 48)) 0

/-- Parse the body of a JSON string after the opening quote, returning the
decoded characters and the remainder after the closing quote.  Supports the
JSON escapes (including `\x75XXXX` hex escapes, decoded to the code point). -/
def parseStringBody : List Char → Option (List Char × List Char)
  | [] => none
  | '"' :: r => some ([], r)
  | '\\' :: e :: r =>
    match e with
    | '"' => (parseStringBody r).map (fun p => ('"' :: p.1, p.2))
    | '\\' => (parseStringBody r).map (fun p => ('\\' :: p.1, p.2))
    | '/' => (parseStringBody r).map (fun p => ('/' :: p.1, p.2))
    | 'b' => (parseStringBody r).map (fun p => ('\x08' :: p.1, p.2))
    | 'f' => (parseStringBody r).map (fun p => ('\x0c' :: p.1, p.2))
    | 'n' => (parseStringBody r).map (fun p => ('\n' :: p.1, p.2))
    | 'r' => (parseStringBody r).map (fun p => ('\r' :: p.1, p.2))
    | 't' => (parseStringBody r).map (fun p => ('\t' :: p.1, p.2))
    | 'u' =>
      match r with
      | h1 :: h2 :: h3 :: h4 :: r' =>
        if isHex h1 && isHex h2 && isHex h3 && isHex h4 then
          let v := 4096 * hexVal h1 + 256 * hexVal h2 + 16 * hexVal h3 + hexVal h4
          (parseStringBody r').map (fun p => (Char.ofNat v :: p.1, p.2))
        else none
      | _ => none
    | _ => none
  | c :: r => (parseStringBody r).map (fun p => (c :: p.1, p.2))
where
  /-- Is `c` a hexadecimal digit? -/
  isHex (c : Char) : Bool :=
    c.isDigit || ('a' ≤ c && c ≤ 'f') || ('A' ≤ c && c ≤ 'F')
  /-- Value of one hexadecimal digit. -/
  hexVal (c : Char) : ℕ :=
    if c.isDigit then c.toNat - 48
    else if 'a' ≤ c ∧ c ≤ 'f' then c.toNat - 87
    else c.toNat - 55

/-- Parse a JSON number (optional minus, integer part, optional fraction,
optional exponent), returning its exact rational value and the remainder. -/
def parseNum (s : List Char) : Option (ℚ × List Char) :=
  let (neg, s1) := match s with
    | '-' :: r => (true, r)
    | _ => (false, s)
  let ip := s1.takeWhile Char.isDigit
  let r1 := s1.dropWhile Char.isDigit
  if ip = [] then none else
  let fracPart : Option (ℕ × ℕ × List Char) :=
    match r1 with
    | '.' :: rf =>
      let fp := rf.takeWhile Char.isDigit
      if fp = [] then none
      else some (digitsToNat (ip ++ fp), fp.length, rf.dropWhile Char.isDigit)
    | _ => some (digitsToNat ip, 0, r1)
  match fracPart with
  | none => none
  | some (mant, scale, r2) =>
    let expPart : Option (ℤ × List Char) :=
      match r2 with
      | 'e' :: re => parseExpPart re
      | 'E' :: re => parseExpPart re
      | _ => some (0, r2)
    match expPart with
    | none => none
    | some (expo, r3) =>
      let base : ℚ := (mant : ℚ) / (10 : ℚ) ^ (scale : ℕ)
      let scaled : ℚ := base * (10 : ℚ) ^ expo
      some (if neg then -scaled else scaled, r3)
where
  /-- Parse an exponent part after `e`/`E`. -/
  parseExpPart (re : List Char) : Option (ℤ × List Char) :=
    let (eneg, re1) := match re with
      | '-' :: r => (true, r)
      | '+' :: r => (false, r)
      | _ => (false, re)
    let ep := re1.takeWhile Char.isDigit
    if ep = [] then none
    else some ((if eneg then -(digitsToNat ep : ℤ) else (digitsToNat ep : ℤ)),
               re1.dropWhile Char.isDigit)

mutual

/-- Parse one JSON value, returning it and the unconsumed remainder.
Fuel-based recursive descent; `parseJson` supplies ample fuel. -/
def parseVal : ℕ → List Char → Option (JVal × List Char)
  | 0, _ => none
  | Nat.succ fuel, s =>
    match skipWs s with
    | 'n' :: 'u' :: 'l' :: 'l' :: r => some (.null, r)
    | 't' :: 'r' :: 'u' :: 'e' :: r => some (.bool true, r)
    | 'f' :: 'a' :: 'l' :: 's' :: 'e' :: r => some (.bool false, r)
    | '"' :: r => (parseStringBody r).map (fun p => (.str p.1, p.2))
    | '[' :: r =>
      (match skipWs r with
       | ']' :: r' => some (.arr [], r')
       | _ => (parseElems fuel r).map (fun p => (.arr p.1, p.2)))
    | '{' :: r =>
      (match skipWs r with
       | '}' :: r' => some (.obj [], r')
       | _ => (parseMembers fuel r).map (fun p => (.obj p.1, p.2)))
    | c :: r =>
      if c.isDigit || c = '-' then
        (parseNum (c :: r)).map (fun p => (.num p.1, p.2))
      else none
    | [] => none

/-- Parse a nonempty comma-separated list of array elements up to `]`. -/
def parseElems : ℕ → List Char → Option (List JVal × List Char)
  | 0, _ => none
  | Nat.succ fuel, s =>
    match parseVal fuel s with
    | none => none
    | some (v, r) =>
      match skipWs r with
      | ',' :: r' =>
        (parseElems fuel r').map (fun p => (v :: p.1, p.2))
      | ']' :: r' => some ([v], r')
      | _ => none

/-- Parse a nonempty comma-separated list of object members up to `}`. -/
def parseMembers : ℕ → List Char → Option (List (List Char × JVal) × List Char)
  | 0, _ => none
  | Nat.succ fuel, s =>
    match skipWs s with
    | '"' :: r =>
      match parseStringBody r with
      | none => none
      | some (k, r1) =>
        match skipWs r1 with
        | ':' :: r2 =>
          match parseVal fuel r2 with
          | none => none
          | some (v, r3) =>
            match skipWs r3 with
            | ',' :: r4 =>
              (parseMembers fuel r4).map (fun p => ((k, v) :: p.1, p.2))
            | '}' :: r4 => some ([(k, v)], r4)
            | _ => none
        | _ => none
    | _ => none

end

/-- Model of `json.loads`: parse the whole input as one JSON document,
requiring only whitespace to remain.  `none` models a raised
`json.JSONDecodeError`. -/
def parseJson (s : List Char) : Option JVal :=
  match parseVal (2 * s.length + 2) s with
  | some (v, r) => if skipWs r = [] then some v else none
  | none => none

/-- Model of `re.search` with pattern "open brace, dot-star, close brace"
under `re.DOTALL`: the leftmost-greedy match runs from the first `{` of the
text to the last `}` of the text, and exists iff some `}` occurs after the
first `{`.  Returns the matched substring. -/
def extractBraces (s : List Char) : Option (List Char) :=
  match s.dropWhile (fun c => c ≠ '{') with
  | [] => none
  | c :: rest =>
    if '}' ∈ rest then
      some (((c :: rest).reverse.dropWhile (fun d => d ≠ '}')).reverse)
    else none

/-! ## Raw upstream records

Each structure carries exactly the fields of the upstream JSON record that
`fpl_captain_system.py` reads.  Python strings are `List Char`, ints are
`ℤ`, nullable fields are `Option`. -/

/-- One entry of the bootstrap `events` list (a gameweek), with the fields
read by `get_current_gameweek`. -/
structure Event where
  id : ℤ
  is_current : Bool
  is_next : Bool
deriving DecidableEq

/-- One entry of the bootstrap `teams` list. -/
structure TeamRaw where
  id : ℤ
  name : List Char
  short_name : List Char
deriving DecidableEq

/-- One entry of the bootstrap `element_types` list (a position). -/
structure PositionRaw where
  id : ℤ
  singular_name : List Char
deriving DecidableEq

/-- One entry of the bootstrap `elements` list (a raw player record), with
the fields read by the mapper, `get_injury_updates` and
`get_ownership_stats`.  `form`, `points_per_game` and `selected_by_percent`
are string-typed upstream, exactly as the API serves them. -/
structure PlayerRaw where
  id : ℤ
  first_name : List Char
  second_name : List Char
  team : ℤ
  element_type : ℤ
  now_cost : ℤ
  total_points : ℤ
  form : List Char
  points_per_game : List Char
  selected_by_percent : List Char
  goals_scored : ℤ
  assists : ℤ
  clean_sheets : ℤ
  minutes : ℤ
  bonus : ℤ
  chance_of_playing_next_round : Option ℤ
  news : List Char
  transfers_in_event : ℤ
  transfers_out_event : ℤ
  cost_change_event : ℤ
deriving DecidableEq

/-- One entry of the `/fixtures/` response, with the fields read by
`get_upcoming_fixtures`.  `event` is null for unscheduled fixtures
(`fixture.get('event')` truthiness also rejects a zero gameweek). -/
structure RawFixture where
  event : Option ℤ
  finished : Bool
  team_h : ℤ
  team_a : ℤ
  team_h_difficulty : ℤ
  team_a_difficulty : ℤ
  kickoff_time : List Char
deriving DecidableEq

/-- One pick of a team snapshot, with the fields the code reads
(`pick['element']`, `pick.get('multiplier', 1)`). -/
structure Pick where
  element : ℤ
  multiplier : ℤ
deriving DecidableEq

/-- The parsed `/entry/id/event/gw/picks/` response fields the code reads. -/
structure PicksPayload where
  picks : List Pick
  active_chip : Option (List Char)
  automatic_subs : List ℤ
deriving DecidableEq

/-- The bootstrap payload.  `keys` records the key list of the raw JSON
object so that Python dict truthiness (`if self._bootstrap_cache:` is false
for the empty dict) is represented faithfully; the other fields are the
decoded `events` / `elements` / `teams` / `element_types` lists the code
accesses with `.get(..., [])`. -/
structure BootstrapPayload where
  keys : List String
  events : List Event
  elements : List PlayerRaw
  teams : List TeamRaw
  element_types : List PositionRaw
deriving DecidableEq

/-! ## Typed records produced by the mapper -/

/-- The `PlayerData` dataclass. -/
structure PlayerData where
  id : ℤ
  name : List Char
  team : List Char
  position : List Char
  price : ℚ
  total_points : ℤ
  form : ℚ
  points_per_game : ℚ
  selected_by_percent : ℚ
  goals_scored : ℤ
  assists : ℤ
  clean_sheets : ℤ
  minutes : ℤ
  bonus : ℤ
  now_cost : ℤ
deriving DecidableEq

/-- The `FixtureData` dataclass. -/
structure FixtureData where
  team_h : ℤ
  team_a : ℤ
  team_h_difficulty : ℤ
  team_a_difficulty : ℤ
  kickoff_time : List Char
  gameweek : ℤ
deriving DecidableEq

/-- The dict built per player by `get_ownership_stats`. -/
structure OwnershipInfo where
  selected_by_percent : ℚ
  transfers_in_event : ℤ
  transfers_out_event : ℤ
  cost_change_event : ℤ
deriving DecidableEq

/-- The dict returned by `fetch_fpl_team_data` (the `team_info` payload is
opaque to the rest of the flow and is modelled as `Unit`). -/
structure TeamData where
  team_info : Unit
  picks : List Pick
  active_chip : Option (List Char)
  automatic_subs : List ℤ
deriving DecidableEq

/-! ## Python dict operations

CPython dicts preserve first-insertion order and overwrite in place, so a
dict built by repeated `d[k] = v` is an association list built with
`dictInsert`. -/

/-- `d[k] = v` on a dict represented as an association list: overwrite the
existing binding in place (dicts built from `[]` by this operation have
unique keys, so the first binding is the only one), else append. -/
def dictInsert {α : Type} : List (ℤ × α) → ℤ → α → List (ℤ × α)
  | [], k, v => [(k, v)]
  | kv :: t, k, v =>
    if kv.1 = k then (k, v) :: t else kv :: dictInsert t k v

/-- The key view of a dict (iteration order). -/
def dictKeys {α : Type} (d : List (ℤ × α)) : List ℤ := d.map Prod.fst

/-- `d.get(k)` on a dict whose keys are unique (as built by `dictInsert`). -/
def dictLookup {α : Type} (d : List (ℤ × α)) (k : ℤ) : Option α :=
  (d.find? (fun kv => kv.1 == k)).map Prod.snd

/-! ## Numeric coercion: `float(s)` on the API's decimal strings -/

/-- Model of Python `float(s)` restricted to the decimal strings the FPL API
serves (digits, optionally a dot and digits).  The value is built the way a
scanner does: all digits as one integer, divided by ten to the number of
fractional digits — an exact rational, matching the claim that coercion
loses no precision.  Python raises `ValueError` on malformed input; the
recommendation flow never feeds it one, and malformed input is mapped to 0
here (no theorem depends on that junk value). -/
def parseFloat (s : List Char) : ℚ :=
  match s.dropWhile Char.isDigit with
  | [] =>
    if s.takeWhile Char.isDigit = [] then 0
    else (digitsToNat (s.takeWhile Char.isDigit) : ℚ)
  | '.' :: fp =>
    if s.takeWhile Char.isDigit ≠ [] ∧ fp ≠ [] ∧ fp.all Char.isDigit then
      (digitsToNat (s.takeWhile Char.isDigit ++ fp) : ℚ)
        / (10 : ℚ) ^ fp.length
    else 0
  | _ => 0

/-! ## The record mapper and the other bootstrap-derived dicts -/

/-- `str(n)` for an integer. -/
def intStr (n : ℤ) : List Char := (toString n).toList

/-- Rendering of a float inside an f-string.  Lean's rational rendering
differs in digits from Python's `str(float)`, but every theorem below uses
prompt text only through determinism, never through its digit shapes. -/
def ratStr (q : ℚ) : List Char := (toString q).toList

/-- The `teams_lookup` dict comprehension of `get_player_performance_data`
followed by `.get(id, 'Unknown')`: a dict comprehension keeps the last entry
for a duplicated key. -/
def teamNameLookup (teams : List TeamRaw) (i : ℤ) : List Char :=
  match teams.reverse.find? (fun t => t.id == i) with
  | some t => t.name
  | none => "Unknown".toList

/-- The `positions_lookup` dict comprehension followed by
`.get(id, 'Unknown')`. -/
def positionNameLookup (positions : List PositionRaw) (i : ℤ) : List Char :=
  match positions.reverse.find? (fun p => p.id == i) with
  | some p => p.singular_name
  | none => "Unknown".toList

/-- The `PlayerData(...)` construction inside
`get_player_performance_data`. -/
def mkPlayerData (teams : List TeamRaw) (positions : List PositionRaw)
    (p : PlayerRaw) : PlayerData where
  id := p.id
  name := p.first_name ++ ' ' :: p.second_name
  team := teamNameLookup teams p.team
  position := positionNameLookup positions p.element_type
  price := (p.now_cost : ℚ) / 10
  total_points := p.total_points
  form := parseFloat p.form
  points_per_game := parseFloat p.points_per_game
  selected_by_percent := parseFloat p.selected_by_percent
  goals_scored := p.goals_scored
  assists := p.assists
  clean_sheets := p.clean_sheets
  minutes := p.minutes
  bonus := p.bonus
  now_cost := p.now_cost

/-- One iteration of `get_player_performance_data`'s loop over the catalog:
insert the mapped record when the player's id is in the allow-list. -/
def gppdStep (teams : List TeamRaw) (positions : List PositionRaw)
    (player_ids : List ℤ) (acc : List (ℤ × PlayerData)) (p : PlayerRaw) :
    List (ℤ × PlayerData) :=
  if p.id ∈ player_ids then
    dictInsert acc p.id (mkPlayerData teams positions p)
  else acc

/-- `get_player_performance_data`, as a function of the bootstrap lists and
the supplied id allow-list: the loop over `elements` inserting one
`PlayerData` per player whose id is in the list. -/
def get_player_performance_data (elements : List PlayerRaw)
    (teams : List TeamRaw) (positions : List PositionRaw)
    (player_ids : List ℤ) : List (ℤ × PlayerData) :=
  elements.foldl (gppdStep teams positions player_ids) []

/-- The status string built per player by `get_injury_updates`. -/
def injuryStatus (p : PlayerRaw) : List Char :=
  let status1 : List (List Char) :=
    match p.chance_of_playing_next_round with
    | some c =>
      if c < 100 then ["Injury risk: ".toList ++ intStr c ++ ['%']] else []
    | none => []
  let status2 : List (List Char) :=
    if p.news ≠ [] then status1 ++ [p.news] else status1
  if status2 = [] then "Available".toList
  else List.intercalate "; ".toList status2

/-- `get_injury_updates`, as a function of the bootstrap `elements` list. -/
def get_injury_updates (elements : List PlayerRaw) (player_ids : List ℤ) :
    List (ℤ × List Char) :=
  elements.foldl
    (fun acc p =>
      if p.id ∈ player_ids then dictInsert acc p.id (injuryStatus p) else acc)
    []

/-- `get_ownership_stats`, as a function of the bootstrap `elements` list. -/
def get_ownership_stats (elements : List PlayerRaw) (player_ids : List ℤ) :
    List (ℤ × OwnershipInfo) :=
  elements.foldl
    (fun acc p =>
      if p.id ∈ player_ids then
        dictInsert acc p.id
          { selected_by_percent := parseFloat p.selected_by_percent
            transfers_in_event := p.transfers_in_event
            transfers_out_event := p.transfers_out_event
            cost_change_event := p.cost_change_event }
      else acc)
    []

/-! ## Gameweek resolution and fixture filtering -/

/-- The two scanning loops of `get_current_gameweek` applied to the
bootstrap `events` list: first entry flagged current, else first entry
flagged next, else 1. -/
def resolve_current_gameweek (events : List Event) : ℤ :=
  match events.find? (fun e => e.is_current) with
  | some e => e.id
  | none =>
    match events.find? (fun e => e.is_next) with
    | some e => e.id
    | none => 1

/-- The `FixtureData(...)` construction inside `get_upcoming_fixtures`,
given the fixture's (truthy) gameweek `e`. -/
def toFixtureData (f : RawFixture) (e : ℤ) : FixtureData where
  team_h := f.team_h
  team_a := f.team_a
  team_h_difficulty := f.team_h_difficulty
  team_a_difficulty := f.team_a_difficulty
  kickoff_time := f.kickoff_time
  gameweek := e

/-- The filtering loop of `get_upcoming_fixtures`: keep a fixture when its
`event` is truthy (non-null, nonzero), lies in
`[current_gw, current_gw + gameweeks - 1]`, and the fixture is not
finished. -/
def filterFixtures (data : List RawFixture) (current_gw gameweeks : ℤ) :
    List FixtureData :=
  data.filterMap
    (fun f =>
      match f.event with
      | some e =>
        if e ≠ 0 ∧ current_gw ≤ e ∧ e ≤ current_gw + gameweeks - 1 ∧
            f.finished = false then
          some (toFixtureData f e)
        else none
      | none => none)

/-- `get_team_fixture_difficulty`'s loop over the (already fetched)
upcoming fixtures for one team id. -/
def get_team_fixture_difficulty (fixtures : List FixtureData) (team_id : ℤ) :
    List ℤ :=
  fixtures.filterMap
    (fun f =>
      if f.team_h = team_id then some f.team_h_difficulty
      else if f.team_a = team_id then some f.team_a_difficulty
      else none)

/-! ## Client state, external world, and the stateful fetch layer -/

/-- The exceptions that can cross the fetch-through-model-call sequence:
wrapped upstream request failures (raised as generic `Exception`), a
failure of the model client, and the `json.JSONDecodeError` that escapes
the fallback parse of the model response. -/
inductive Err where
  | upstream (msg : List Char)
  | llmFailure (msg : List Char)
  | jsonDecode
deriving DecidableEq

/-- The mutable cache fields of an `FPLCaptainRecommender` instance.
`_teams_cache` is declared but never read or written by the code. -/
structure ClientState where
  bootstrap_cache : Option BootstrapPayload := none
  fixtures_cache : Option (List FixtureData) := none
  teams_cache : Option Unit := none
deriving DecidableEq

/-- The external world of one recommendation run: the responses the four
HTTP endpoints would deliver (`Except` = transport/HTTP failure, raised as
`requests.RequestException`) and the model invocation (prompt text in,
response text out, `Except` = a raised client error). -/
structure World where
  bootstrap_resp : Except (List Char) BootstrapPayload
  fixtures_resp : Except (List Char) (List RawFixture)
  team_info_resp : ℤ → Except (List Char) Unit
  picks_resp : ℤ → ℤ → Except (List Char) PicksPayload
  llm : List Char → Except (List Char) (List Char)

/-- The un-cached fetch path of `fetch_fpl_bootstrap_data`: perform the
request, store the payload in the cache, or re-raise the request failure
as a generic `Exception`. -/
def fetch_bootstrap_fresh (w : World) (st : ClientState) :
    Except Err BootstrapPayload × ClientState :=
  match w.bootstrap_resp with
  | .ok p => (.ok p, { st with bootstrap_cache := some p })
  | .error e =>
    (.error (.upstream ("Failed to fetch bootstrap data: ".toList ++ e)), st)

/-- `fetch_fpl_bootstrap_data`: `if self._bootstrap_cache:` is Python dict
truthiness, so a cached empty payload (no keys) falls through to a fresh
fetch. -/
def fetch_fpl_bootstrap_data (w : World) (st : ClientState) :
    Except Err BootstrapPayload × ClientState :=
  match st.bootstrap_cache with
  | some c => if c.keys ≠ [] then (.ok c, st) else fetch_bootstrap_fresh w st
  | none => fetch_bootstrap_fresh w st

/-- `get_current_gameweek`: fetch (or reuse) the bootstrap payload and scan
its `events` list. -/
def get_current_gameweek (w : World) (st : ClientState) :
    Except Err ℤ × ClientState :=
  match fetch_fpl_bootstrap_data w st with
  | (.error e, st') => (.error e, st')
  | (.ok p, st') => (.ok (resolve_current_gameweek p.events), st')

/-- The un-cached fetch path of `get_upcoming_fixtures`: request the
fixtures list, resolve the current gameweek, filter, and store the result
in the cache. -/
def fetch_fixtures_fresh (w : World) (gameweeks : ℤ) (st : ClientState) :
    Except Err (List FixtureData) × ClientState :=
  match w.fixtures_resp with
  | .error e =>
    (.error (.upstream ("Failed to fetch fixtures: ".toList ++ e)), st)
  | .ok data =>
    match get_current_gameweek w st with
    | (.error e, st') => (.error e, st')
    | (.ok current_gw, st') =>
      let upcoming := filterFixtures data current_gw gameweeks
      (.ok upcoming, { st' with fixtures_cache := some upcoming })

/-- `get_upcoming_fixtures(gameweeks=3)`: `if self._fixtures_cache:` is
Python list truthiness, so both an unpopulated cache and a cached empty
list fall through to a fresh fetch; a cached non-empty list is returned
unconditionally, ignoring `gameweeks`. -/
def get_upcoming_fixtures (w : World) (gameweeks : ℤ) (st : ClientState) :
    Except Err (List FixtureData) × ClientState :=
  match st.fixtures_cache with
  | some l => if l ≠ [] then (.ok l, st) else fetch_fixtures_fresh w gameweeks st
  | none => fetch_fixtures_fresh w gameweeks st

/-- `fetch_fpl_team_data`: entry request, current-gameweek resolution
(which fetches the bootstrap payload), then the picks request. -/
def fetch_fpl_team_data (w : World) (team_id : ℤ) (st : ClientState) :
    Except Err TeamData × ClientState :=
  match w.team_info_resp team_id with
  | .error e =>
    (.error (.upstream (("Failed to fetch team data for ID ".toList
      ++ intStr team_id ++ ": ".toList) ++ e)), st)
  | .ok ti =>
    match get_current_gameweek w st with
    | (.error e, st') => (.error e, st')
    | (.ok current_gw, st') =>
      match w.picks_resp team_id current_gw with
      | .error e =>
        (.error (.upstream (("Failed to fetch team data for ID ".toList
          ++ intStr team_id ++ ": ".toList) ++ e)), st')
      | .ok pd =>
        (.ok { team_info := ti, picks := pd.picks,
               active_chip := pd.active_chip,
               automatic_subs := pd.automatic_subs }, st')

/-! ## Prompt assembly -/

/-- `next((p for p in picks if p['element'] == player_id), {})` followed by
`.get('multiplier', 1)`: the first matching pick's multiplier, defaulting
to 1 when no pick matches (the empty-dict default). -/
def multiplierOf (picks : List Pick) (player_id : ℤ) : ℤ :=
  match picks.find? (fun p => p.element == player_id) with
  | some p => p.multiplier
  | none => 1

/-- `next((team['id'] for team in teams if team['name'] == player.team), 0)`
inside the player-details loop. -/
def team_id_for_player (teams : List TeamRaw) (team_name : List Char) : ℤ :=
  match teams.find? (fun t => t.name == team_name) with
  | some t => t.id
  | none => 0

/-- The `teams_lookup` short-name dict comprehension of the fixture digest
followed by `.get(id, 'UNK')`. -/
def shortNameLookup (teams : List TeamRaw) (i : ℤ) : List Char :=
  match teams.reverse.find? (fun t => t.id == i) with
  | some t => t.short_name
  | none => "UNK".toList

/-- `str(l)` for a Python list of ints, as interpolated into the
fixture-difficulty line. -/
def intListStr (l : List ℤ) : List Char :=
  '[' :: List.intercalate ", ".toList (l.map intStr) ++ [']']

/-- The `player_detail` f-string of the eligible-candidate loop. -/
def player_detail_line (player : PlayerData) (fixture_difficulties : List ℤ)
    (status : List Char) : List Char :=
  "\n- ".toList ++ player.name ++ " (".toList ++ player.team
    ++ ") - ".toList ++ player.position
    ++ "\n  * Price: Â£".toList ++ ratStr player.price
    ++ "m | Total Points: ".toList ++ intStr player.total_points
    ++ " | Form: ".toList ++ ratStr player.form
    ++ "\n  * PPG: ".toList ++ ratStr player.points_per_game
    ++ " | Goals: ".toList ++ intStr player.goals_scored
    ++ " | Assists: ".toList ++ intStr player.assists
    ++ "\n  * Ownership: ".toList ++ ratStr player.selected_by_percent
    ++ "% | Minutes: ".toList ++ intStr player.minutes
    ++ "\n  * Fixture Difficulty (next 3): ".toList
    ++ intListStr fixture_difficulties
    ++ "\n  * Status: ".toList ++ status ++ "\n".toList

/-- The captain-eligibility filter of the player-details loop: keep the
`player_stats` items whose pick multiplier is at least 1 (not benched). -/
def eligible_stats (stats : List (ℤ × PlayerData)) (picks : List Pick) :
    List (ℤ × PlayerData) :=
  stats.filter (fun kv => 1 ≤ multiplierOf picks kv.1)

/-- The ids that reach the eligible-candidate section of the prompt. -/
def eligibleIds (stats : List (ℤ × PlayerData)) (picks : List Pick) :
    List ℤ :=
  (eligible_stats stats picks).map Prod.fst

/-- The `player_details` list built by the eligible-candidate loop.  The
in-loop `fetch_fpl_bootstrap_data()` and `get_upcoming_fixtures(3)` calls
are served by the caches the surrounding code has just populated (and when
a falsy cached value forces a re-fetch, the unchanged world returns the
same data), so they are embedded as the already-fetched `teams` and
`fixtures`. -/
def build_player_details (stats : List (ℤ × PlayerData)) (picks : List Pick)
    (teams : List TeamRaw) (fixtures : List FixtureData)
    (injury : List (ℤ × List Char)) : List (List Char) :=
  (eligible_stats stats picks).map
    (fun kv =>
      let tid := team_id_for_player teams kv.2.team
      player_detail_line kv.2 (get_team_fixture_difficulty fixtures tid)
        ((dictLookup injury kv.1).getD ("Available".toList)))

/-- One line of the fixture digest. -/
def fixture_line (teams : List TeamRaw) (f : FixtureData) : List Char :=
  "GW".toList ++ intStr f.gameweek ++ ": ".toList
    ++ shortNameLookup teams f.team_h ++ " vs ".toList
    ++ shortNameLookup teams f.team_a
    ++ " (Difficulty: ".toList ++ intStr f.team_h_difficulty
    ++ "-".toList ++ intStr f.team_a_difficulty ++ ")".toList

/-- The fixture digest, limited to the first 15 upcoming fixtures. -/
def build_fixture_analysis (teams : List TeamRaw)
    (fixtures : List FixtureData) : List (List Char) :=
  (fixtures.take 15).map (fixture_line teams)

/-- The `injury_news` context lines: one per player whose status is not
`'Available'`.  `player_stats[pid]` cannot miss (both dicts are keyed by
the same filtered catalog ids); the lookup's default is never taken. -/
def build_injury_lines (stats : List (ℤ × PlayerData))
    (injury : List (ℤ × List Char)) : List (List Char) :=
  (injury.filter (fun kv => kv.2 ≠ "Available".toList)).map
    (fun kv =>
      "- ".toList ++ ((dictLookup stats kv.1).map PlayerData.name).getD []
        ++ ": ".toList ++ kv.2)

/-- The `ownership_info` context lines. -/
def build_ownership_lines (stats : List (ℤ × PlayerData))
    (ownership : List (ℤ × OwnershipInfo)) : List (List Char) :=
  ownership.map
    (fun kv =>
      "- ".toList ++ ((dictLookup stats kv.1).map PlayerData.name).getD []
        ++ ": ".toList ++ ratStr kv.2.selected_by_percent
        ++ "% owned, Transfers: +".toList ++ intStr kv.2.transfers_in_event
        ++ " -".toList ++ intStr kv.2.transfers_out_event)

/-- The fixed template of `format_captain_prompt` up to the
`current_gameweek` slot. -/
def tmpl1 : List Char :=
  "\nYou are an expert Fantasy Premier League analyst. Your task is to recommend 3 different captain choices for the given team, ranking them from best to worst with detailed reasoning.\n\nCURRENT GAMEWEEK: ".toList

/-- Template text between the `current_gameweek` and `player_details`
slots. -/
def tmpl2 : List Char :=
  "\n\nAVAILABLE CAPTAIN OPTIONS:\n".toList

/-- Template text between the `player_details` and `fixture_analysis`
slots. -/
def tmpl3 : List Char :=
  "\n\nUPCOMING FIXTURES (next 3 gameweeks):\n".toList

/-- Template text between the `fixture_analysis` and `injury_news` slots. -/
def tmpl4 : List Char :=
  "\n\nINJURY/AVAILABILITY NEWS:\n".toList

/-- Template text between the `injury_news` and `ownership_info` slots. -/
def tmpl5 : List Char :=
  "\n\nOWNERSHIP DATA:\n".toList

/-- The closing template text: the literal JSON output schema (the doubled
braces of the Python template render as single braces) and the analysis
instructions. -/
def tmpl6 : List Char :=
  "\n\nPlease analyze and provide exactly 3 captain recommendations in the following JSON format:\n\x7b\n    \"recommendations\": [\n        \x7b\n            \"rank\": 1,\n            \"player_name\": \"Player Name\",\n            \"player_id\": 123,\n            \"reasoning\": \"Detailed explanation of why this is the best choice\",\n            \"key_factors\": [\"factor1\", \"factor2\", \"factor3\"],\n            \"risk_level\": \"Low/Medium/High\",\n            \"differential_potential\": \"Template/Semi-differential/High differential\"\n        \x7d,\n        \x7b\n            \"rank\": 2,\n            \"player_name\": \"Player Name\", \n            \"player_id\": 456,\n            \"reasoning\": \"Detailed explanation\",\n            \"key_factors\": [\"factor1\", \"factor2\"],\n            \"risk_level\": \"Low/Medium/High\",\n            \"differential_potential\": \"Template/Semi-differential/High differential\"\n        \x7d,\n        \x7b\n            \"rank\": 3,\n            \"player_name\": \"Player Name\",\n            \"player_id\": 789, \n            \"reasoning\": \"Detailed explanation\",\n            \"key_factors\": [\"factor1\", \"factor2\"],\n            \"risk_level\": \"Low/Medium/High\",\n            \"differential_potential\": \"Template/Semi-differential/High differential\"\n        \x7d\n    ],\n    \"general_advice\": \"Overall strategy considerations for this gameweek\"\n\x7d\n\nConsider these factors in your analysis:\n1. Recent form and consistency\n2. Fixture difficulty and matchup analysis  \n3. Injury/rotation risks\n4. Ownership levels and differential potential\n5. Historical performance vs upcoming opponents\n6. Price and value considerations\n7. Team motivation and context\n\nFocus on players who are likely to start and have good scoring potential.\n".toList

/-- `format_captain_prompt`: substitute the five context values into the
fixed template. -/
def format_captain_prompt (current_gameweek : ℤ)
    (player_details fixture_analysis injury_news ownership_info : List Char) :
    List Char :=
  tmpl1 ++ intStr current_gameweek ++ tmpl2 ++ player_details
    ++ tmpl3 ++ fixture_analysis ++ tmpl4 ++ injury_news
    ++ tmpl5 ++ ownership_info ++ tmpl6

/-- The input snapshot of one prompt assembly: everything the assembly
step of `get_captain_recommendations` reads. -/
structure PromptInputs where
  stats : List (ℤ × PlayerData)
  picks : List Pick
  teams : List TeamRaw
  fixtures : List FixtureData
  injury : List (ℤ × List Char)
  ownership : List (ℤ × OwnershipInfo)
  current_gw : ℤ

/-- The assembly-plus-`format_captain_prompt` step: build the four context
sections from the snapshot, join them with newlines, and substitute them
into the template. -/
def assemble_prompt (i : PromptInputs) : List Char :=
  format_captain_prompt i.current_gw
    (List.intercalate "\n".toList
      (build_player_details i.stats i.picks i.teams i.fixtures i.injury))
    (List.intercalate "\n".toList
      (build_fixture_analysis i.teams i.fixtures))
    (List.intercalate "\n".toList
      (build_injury_lines i.stats i.injury))
    (List.intercalate "\n".toList
      (build_ownership_lines i.stats i.ownership))

/-! ## Orchestration: `get_captain_recommendations` -/

/-- The result dict of `get_captain_recommendations`:
`recs j` is the successfully parsed model output;
`parseFailure raw` is the literal
`("error": "Failed to parse LLM response", "raw_response": raw)` dict;
`caught e team_id` is the
`("error": "Error getting recommendations: ...", "team_id": team_id)` dict
produced by the outer exception handler. -/
inductive RecResult where
  | recs (j : JVal)
  | parseFailure (raw : List Char)
  | caught (e : Err) (team_id : ℤ)

/-- The fetch-and-assemble prefix of `get_captain_recommendations`: all
four fetches, the mapping steps, and prompt assembly, up to (but not
including) the model call.  The source fetches the bootstrap payload again
inside `get_player_performance_data`, `get_injury_updates` and
`get_ownership_stats`; with an unchanged world those calls return the
payload already obtained here, so it is fetched once and shared. -/
def build_prompt_stage (w : World) (team_id : ℤ) (st : ClientState) :
    Except Err (List Char) × ClientState :=
  match fetch_fpl_team_data w team_id st with
  | (.error e, st') => (.error e, st')
  | (.ok team_data, st1) =>
    match get_current_gameweek w st1 with
    | (.error e, st') => (.error e, st')
    | (.ok current_gw, st2) =>
      let player_ids := team_data.picks.map Pick.element
      match fetch_fpl_bootstrap_data w st2 with
      | (.error e, st') => (.error e, st')
      | (.ok p, st3) =>
        let player_stats :=
          get_player_performance_data p.elements p.teams p.element_types
            player_ids
        let injury_news := get_injury_updates p.elements player_ids
        let ownership_data := get_ownership_stats p.elements player_ids
        match get_upcoming_fixtures w 3 st3 with
        | (.error e, st') => (.error e, st')
        | (.ok fixtures, st4) =>
          (.ok (assemble_prompt
            { stats := player_stats, picks := team_data.picks,
              teams := p.teams, fixtures := fixtures,
              injury := injury_news, ownership := ownership_data,
              current_gw := current_gw }), st4)

/-- The inner `try/except json.JSONDecodeError` around the model response:
primary full-body parse; on failure, regex extraction and a second parse
(whose own failure raises out of the inner handler); with no regex match,
the structured parse-failure dict. -/
def parse_llm_response (content : List Char) : Except Err RecResult :=
  match parseJson content with
  | some j => .ok (.recs j)
  | none =>
    match extractBraces content with
    | some sub =>
      match parseJson sub with
      | some j => .ok (.recs j)
      | none => .error .jsonDecode
    | none => .ok (.parseFailure content)

/-- The body of the outer `try` of `get_captain_recommendations`: the
fetch-through-model-call sequence followed by response parsing. -/
def recommend_core (w : World) (team_id : ℤ) (st : ClientState) :
    Except Err RecResult × ClientState :=
  match build_prompt_stage w team_id st with
  | (.error e, st') => (.error e, st')
  | (.ok prompt, st') =>
    match w.llm prompt with
    | .error e => (.error (.llmFailure e), st')
    | .ok content => (parse_llm_response content, st')

/-- `get_captain_recommendations`: run the whole sequence and convert any
escaping exception into the `(error, team_id)` result dict. -/
def get_captain_recommendations (w : World) (team_id : ℤ)
    (st : ClientState) : RecResult × ClientState :=
  match recommend_core w team_id st with
  | (.ok r, st') => (r, st')
  | (.error e, st') => (.caught e team_id, st')

/-! ## Helper lemmas -/

theorem dictKeys_dictInsert {α : Type} (d : List (ℤ × α)) (k : ℤ) (v : α)
    (k' : ℤ) :
    k' ∈ dictKeys (dictInsert d k v) ↔ k' ∈ dictKeys d ∨ k' = k := by
  induction d with
  | nil => simp [dictInsert, dictKeys]
  | cons kv t ih =>
    by_cases h : kv.1 = k
    · simp only [dictInsert, if_pos h, dictKeys, List.map_cons, List.mem_cons]
      rw [h]
      tauto
    · simp only [dictInsert, if_neg h, dictKeys, List.map_cons,
        List.mem_cons] at *
      tauto

theorem dictLookup_cons_pos {α : Type} (kv : ℤ × α) (t : List (ℤ × α))
    (k' : ℤ) (h : kv.1 = k') : dictLookup (kv :: t) k' = some kv.2 := by
  have hb : (kv.1 == k') = true := beq_iff_eq.mpr h
  simp [dictLookup, List.find?, hb]

theorem dictLookup_cons_neg {α : Type} (kv : ℤ × α) (t : List (ℤ × α))
    (k' : ℤ) (h : ¬ kv.1 = k') :
    dictLookup (kv :: t) k' = dictLookup t k' := by
  have hb : (kv.1 == k') = false := beq_eq_false_iff_ne.mpr h
  simp [dictLookup, List.find?, hb]

theorem dictLookup_dictInsert {α : Type} (d : List (ℤ × α)) (k : ℤ) (v : α)
    (k' : ℤ) :
    dictLookup (dictInsert d k v) k' =
      if k' = k then some v else dictLookup d k' := by
  induction d with
  | nil =>
    show dictLookup [(k, v)] k' = if k' = k then some v else dictLookup [] k'
    by_cases h : k' = k
    · rw [if_pos h, dictLookup_cons_pos _ _ _ h.symm]
    · rw [if_neg h, dictLookup_cons_neg _ _ _ (fun hh => h hh.symm)]
  | cons kv t ih =>
    by_cases h : kv.1 = k
    · unfold dictInsert
      rw [if_pos h]
      by_cases h2 : k' = k
      · rw [if_pos h2, dictLookup_cons_pos _ _ _ h2.symm]
      · rw [if_neg h2, dictLookup_cons_neg _ _ _ (fun hh => h2 hh.symm),
          dictLookup_cons_neg kv _ _ (fun hh => h2 (hh.symm.trans h))]
    · unfold dictInsert
      rw [if_neg h]
      by_cases h2 : kv.1 = k'
      · have hk : ¬ k' = k := fun hh => h (h2.trans hh)
        rw [if_neg hk, dictLookup_cons_pos _ _ _ h2,
          dictLookup_cons_pos _ _ _ h2]
      · rw [dictLookup_cons_neg _ _ _ h2, dictLookup_cons_neg _ _ _ h2]
        exact ih

theorem dropWhile_append_all (f : Char → Bool) (l1 l2 : List Char)
    (h : ∀ c ∈ l1, f c = true) :
    (l1 ++ l2).dropWhile f = l2.dropWhile f := by
  induction l1 with
  | nil => rfl
  | cons c t ih =>
    simp only [List.cons_append, List.dropWhile_cons,
      h c (List.mem_cons_self c t)]
    exact ih (fun x hx => h x (List.mem_cons_of_mem c hx))

theorem takeWhile_append_stop (f : Char → Bool) (l1 l2 : List Char) (x : Char)
    (h : ∀ c ∈ l1, f c = true) (hx : f x = false) :
    (l1 ++ x :: l2).takeWhile f = l1 ∧
    (l1 ++ x :: l2).dropWhile f = x :: l2 := by
  induction l1 with
  | nil => simp [List.takeWhile_cons, List.dropWhile_cons, hx]
  | cons c t ih =>
    have hc := h c (List.mem_cons_self c t)
    have iht := ih (fun y hy => h y (List.mem_cons_of_mem c hy))
    simp only [List.cons_append, List.takeWhile_cons, List.dropWhile_cons, hc]
    simp [iht.1, iht.2]

theorem foldl_digits_shift (l : List Char) (a : ℕ) :
    l.foldl (fun a c => 10 * a + (c.toNat - 48)) a
      = a * 10 ^ l.length + digitsToNat l := by
  induction l generalizing a with
  | nil => simp [digitsToNat]
  | cons c t ih =>
    show t.foldl (fun a c => 10 * a + (c.toNat - 48))
        (10 * a + (c.toNat - 48))
      = a * 10 ^ (t.length + 1) + digitsToNat (c :: t)
    have h2 : digitsToNat (c :: t)
        = t.foldl (fun a c => 10 * a + (c.toNat - 48))
            (10 * 0 + (c.toNat - 48)) := rfl
    rw [h2, ih, ih (10 * 0 + (c.toNat - 48))]
    ring

theorem digitsToNat_append (l1 l2 : List Char) :
    digitsToNat (l1 ++ l2)
      = digitsToNat l1 * 10 ^ l2.length + digitsToNat l2 := by
  unfold digitsToNat
  rw [List.foldl_append]
  exact foldl_digits_shift l2 _

/-! ## Concrete data used by the witnesses -/

/-- The default (freshly constructed) client state: all caches unset. -/
def stEmpty : ClientState := {}

/-- A bootstrap payload with data (non-empty key set) but no entries. -/
def bootEmptyLists : BootstrapPayload :=
  { keys := ["events"], events := [], elements := [], teams := [],
    element_types := [] }

/-- A world in which every request succeeds and the model answers with
plain prose. -/
def wOk : World where
  bootstrap_resp := .ok bootEmptyLists
  fixtures_resp := .ok []
  team_info_resp := fun _ => .ok ()
  picks_resp := fun _ _ => .ok ⟨[], none, []⟩
  llm := fun _ => .ok "hello".toList

/-- An events list with one entry flagged next before one flagged
current. -/
def evCur : List Event := [⟨3, false, true⟩, ⟨5, true, false⟩]

/-- An events list with no entry flagged current and one flagged next. -/
def evNext : List Event := [⟨4, false, false⟩, ⟨7, false, true⟩]

/-- An events list with neither flag set anywhere. -/
def evNone : List Event := [⟨2, false, false⟩]

/-! ## C2: gameweek resolution -/

/-- C2: for every gameweek (event) list, the gameweek resolution of
`get_current_gameweek` returns the id of an entry flagged current when one
exists (regardless of entries flagged next); with no current-flagged entry
it returns a next-flagged entry's id when one exists; and with neither
flag set anywhere it returns 1.  The first conjunct ties the stateful
`get_current_gameweek` to the scan of the fetched payload's events. -/
theorem gameweek_resolution (events : List Event) :
    (∀ (w : World) (st st' : ClientState) (p : BootstrapPayload),
      fetch_fpl_bootstrap_data w st = (.ok p, st') →
      (get_current_gameweek w st).1
        = .ok (resolve_current_gameweek p.events)) ∧
    ((∃ e ∈ events, e.is_current = true) →
      ∃ e ∈ events, e.is_current = true
        ∧ resolve_current_gameweek events = e.id) ∧
    ((∀ e ∈ events, e.is_current = false) →
      (∃ e ∈ events, e.is_next = true) →
      ∃ e ∈ events, e.is_next = true
        ∧ resolve_current_gameweek events = e.id) ∧
    ((∀ e ∈ events, e.is_current = false ∧ e.is_next = false) →
      resolve_current_gameweek events = 1) := by
  refine ⟨?_, ?_, ?_, ?_⟩
  · intro w st st' p h
    unfold get_current_gameweek
    rw [h]
  · rintro ⟨e, he, hc⟩
    have hs : (events.find? (fun e => e.is_current)).isSome := by
      rw [List.find?_isSome]
      exact ⟨e, he, hc⟩
    obtain ⟨a, ha⟩ := Option.isSome_iff_exists.mp hs
    exact ⟨a, List.mem_of_find?_eq_some ha, List.find?_some ha,
      by simp [resolve_current_gameweek, ha]⟩
  · intro hnone hex
    have h1 : events.find? (fun e => e.is_current) = none :=
      List.find?_eq_none.mpr (fun x hx => by simp [hnone x hx])
    obtain ⟨e, he, hn⟩ := hex
    have hs : (events.find? (fun e => e.is_next)).isSome := by
      rw [List.find?_isSome]
      exact ⟨e, he, hn⟩
    obtain ⟨a, ha⟩ := Option.isSome_iff_exists.mp hs
    exact ⟨a, List.mem_of_find?_eq_some ha, List.find?_some ha,
      by simp [resolve_current_gameweek, h1, ha]⟩
  · intro h
    have h1 : events.find? (fun e => e.is_current) = none :=
      List.find?_eq_none.mpr (fun x hx => by simp [(h x hx).1])
    have h2 : events.find? (fun e => e.is_next) = none :=
      List.find?_eq_none.mpr (fun x hx => by simp [(h x hx).2])
    simp [resolve_current_gameweek, h1, h2]

/-- Witness for C2 at three concrete event lists. -/
theorem gameweek_resolution_witness :
    (∃ e ∈ evCur, e.is_current = true
      ∧ resolve_current_gameweek evCur = e.id) ∧
    (∃ e ∈ evNext, e.is_next = true
      ∧ resolve_current_gameweek evNext = e.id) ∧
    resolve_current_gameweek evNone = 1 :=
  ⟨(gameweek_resolution evCur).2.1 (by decide),
   (gameweek_resolution evNext).2.2.1 (by decide) (by decide),
   (gameweek_resolution evNone).2.2.2 (by decide)⟩

/-! ## C4: the fixtures cache ignores the window size -/

theorem fetch_fresh_cache_after_ok (w : World) (g : ℤ) (st : ClientState)
    (l : List FixtureData) (h : (fetch_fixtures_fresh w g st).1 = .ok l) :
    (fetch_fixtures_fresh w g st).2.fixtures_cache = some l := by
  unfold fetch_fixtures_fresh at *
  revert h
  cases hr : w.fixtures_resp with
  | error e => intro h; simp at h
  | ok data =>
    rcases hg : get_current_gameweek w st with ⟨r, st'⟩
    cases r with
    | error e => intro h; simp at h
    | ok cgw =>
      intro h
      simp at h
      simp [h]

theorem fixtures_cache_after_ok (w : World) (g : ℤ) (st : ClientState)
    (l : List FixtureData) (h : (get_upcoming_fixtures w g st).1 = .ok l) :
    (get_upcoming_fixtures w g st).2.fixtures_cache = some l := by
  unfold get_upcoming_fixtures at *
  revert h
  cases hc : st.fixtures_cache with
  | some l' =>
    dsimp only
    by_cases hne : l' = []
    · subst hne
      rw [if_neg (fun hh => hh rfl)]
      exact fetch_fresh_cache_after_ok w g st l
    · rw [if_pos hne]
      intro h
      simp at h
      show st.fixtures_cache = some l
      rw [hc, h]
  | none =>
    exact fetch_fresh_cache_after_ok w g st l

theorem get_upcoming_fixtures_cache_hit (w : World) (g : ℤ)
    (st : ClientState) (l : List FixtureData)
    (hc : st.fixtures_cache = some l) (hne : l ≠ []) :
    get_upcoming_fixtures w g st = (.ok l, st) := by
  unfold get_upcoming_fixtures
  rw [hc]
  simp [hne]

/-- C4: once a call to `get_upcoming_fixtures` has populated the fixtures
cache (with a truthy, i.e. non-empty, list), every subsequent call on the
same instance returns that first call's result, whatever `gameweeks`
window the later call passes: the cache is keyed only by the instance. -/
theorem fixtures_cache_ignores_window (w : World) (st : ClientState)
    (g1 g2 : ℤ) (l : List FixtureData)
    (h : (get_upcoming_fixtures w g1 st).1 = .ok l) (hne : l ≠ []) :
    (get_upcoming_fixtures w g2 (get_upcoming_fixtures w g1 st).2).1
      = .ok l := by
  have hcache := fixtures_cache_after_ok w g1 st l h
  rw [get_upcoming_fixtures_cache_hit w g2 _ l hcache hne]

/-- A scheduled, unfinished fixture at gameweek 5. -/
def rawFixW : RawFixture :=
  { event := some 5, finished := false, team_h := 1, team_a := 2,
    team_h_difficulty := 3, team_a_difficulty := 2,
    kickoff_time := "t".toList }

/-- A bootstrap payload whose events flag gameweek 5 as current. -/
def bootCur5 : BootstrapPayload :=
  { keys := ["events"], events := [⟨5, true, false⟩], elements := [],
    teams := [], element_types := [] }

/-- A world with one upcoming fixture and gameweek 5 current. -/
def wFixt : World :=
  { wOk with bootstrap_resp := .ok bootCur5,
             fixtures_resp := .ok [rawFixW] }

/-- Witness for C4: after a first call with window 3, a second call with
window 0 still returns the cached window-3 result. -/
theorem fixtures_cache_ignores_window_witness :
    (get_upcoming_fixtures wFixt 0
      (get_upcoming_fixtures wFixt 3 stEmpty).2).1
      = .ok [toFixtureData rawFixW 5] :=
  fixtures_cache_ignores_window wFixt stEmpty 3 0 [toFixtureData rawFixW 5]
    (by rfl) (by simp)

/-! ## C10: falsy cached values are treated as absent -/

/-- C10: a cached empty fixtures list and a cached empty bootstrap payload
fail Python truthiness, so a call finding such a cache value takes the
fresh-fetch path rather than returning the cached empty result. -/
theorem empty_cache_refetches (w : World) (st : ClientState) (g : ℤ)
    (p : BootstrapPayload)
    (hfix : st.fixtures_cache = some [])
    (hboot : st.bootstrap_cache = some p) (hp : p.keys = []) :
    get_upcoming_fixtures w g st = fetch_fixtures_fresh w g st ∧
    fetch_fpl_bootstrap_data w st = fetch_bootstrap_fresh w st := by
  constructor
  · unfold get_upcoming_fixtures
    rw [hfix]
    simp
  · unfold fetch_fpl_bootstrap_data
    rw [hboot]
    simp [hp]

/-- A client state holding a falsy empty payload and a falsy empty
fixtures list. -/
def stStale : ClientState :=
  { bootstrap_cache := some ⟨[], [], [], [], []⟩,
    fixtures_cache := some [], teams_cache := none }

/-- Witness for C10 at a concrete stale state. -/
theorem empty_cache_refetches_witness :
    get_upcoming_fixtures wOk 3 stStale = fetch_fixtures_fresh wOk 3 stStale ∧
    fetch_fpl_bootstrap_data wOk stStale = fetch_bootstrap_fresh wOk stStale :=
  empty_cache_refetches wOk stStale 3 ⟨[], [], [], [], []⟩ rfl rfl rfl

/-! ## C8: the orchestration boundary catches every exception -/

/-- C8: whenever any exception escapes the fetch-through-model-call
sequence (`recommend_core` yields an error), `get_captain_recommendations`
returns the `(error, team_id)` result dict carrying its own `team_id`
argument instead of propagating the exception (the embedding is total, so
no other escape path exists). -/
theorem orchestration_catches_exceptions (w : World) (team_id : ℤ)
    (st : ClientState) (e : Err)
    (h : (recommend_core w team_id st).1 = .error e) :
    (get_captain_recommendations w team_id st).1 = .caught e team_id := by
  unfold get_captain_recommendations
  rcases hr : recommend_core w team_id st with ⟨r, st'⟩
  rw [hr] at h
  cases r with
  | ok a => exact absurd h (by simp)
  | error e' => simp at h; rw [h]

/-- A world whose bootstrap request fails. -/
def wFail : World := { wOk with bootstrap_resp := .error "boom".toList }

/-- Witness for C8: a failing bootstrap fetch surfaces as the
`(error, team_id)` dict for team 7. -/
theorem orchestration_catches_exceptions_witness :
    (get_captain_recommendations wFail 7 stEmpty).1
      = .caught (Err.upstream ("Failed to fetch bootstrap data: boom".toList))
          7 :=
  orchestration_catches_exceptions wFail 7 stEmpty
    (Err.upstream ("Failed to fetch bootstrap data: boom".toList)) (by rfl)

/-! ## C9: prompt assembly is deterministic -/

/-- C9: the assembly-plus-`format_captain_prompt` step is a pure function
of its input snapshot: two invocations on identical snapshots produce
byte-identical prompt text (the embedding takes no clock and no source of
randomness, mirroring the code, which reads none). -/
theorem prompt_assembly_deterministic (a b : PromptInputs) (h : a = b) :
    assemble_prompt a = assemble_prompt b := by rw [h]

/-- A concrete prompt-assembly snapshot. -/
def promptInputsW : PromptInputs :=
  { stats := [], picks := [], teams := [], fixtures := [], injury := [],
    ownership := [], current_gw := 5 }

/-- Witness for C9 at a concrete snapshot. -/
theorem prompt_assembly_deterministic_witness :
    assemble_prompt promptInputsW = assemble_prompt promptInputsW :=
  prompt_assembly_deterministic promptInputsW promptInputsW rfl

/-! ## C3: fixture filtering is exact-boundary -/

theorem filterMap_filter_finished (g : RawFixture → Option FixtureData)
    (hg : ∀ f, f.finished = true → g f = none) (data : List RawFixture) :
    data.filterMap g
      = (data.filter (fun f => f.finished = false)).filterMap g := by
  induction data with
  | nil => rfl
  | cons f t ih =>
    rw [List.filter_cons]
    cases hfin : f.finished
    · rw [if_pos (by simp [hfin])]
      rw [List.filterMap_cons, List.filterMap_cons]
      cases hgf : g f <;> simp [hgf, ih]
    · rw [if_neg (by simp [hfin])]
      rw [List.filterMap_cons, hg f hfin]
      exact ih

/-- C3: on a fresh fetch, `get_upcoming_fixtures` returns exactly the
filtered fixtures list; an unfinished fixture at gameweek
`current_gw + gameweeks - 1` is included; no returned fixture sits at
gameweek `current_gw + gameweeks`; and finished fixtures never contribute,
whatever their gameweek. -/
theorem fixture_window_exact (w : World) (st : ClientState)
    (data : List RawFixture) (current_gw gameweeks : ℤ)
    (hcache : st.fixtures_cache = none)
    (hresp : w.fixtures_resp = .ok data)
    (hgw : (get_current_gameweek w st).1 = .ok current_gw)
    (h1 : 1 ≤ current_gw) (h2 : 1 ≤ gameweeks) :
    (get_upcoming_fixtures w gameweeks st).1
      = .ok (filterFixtures data current_gw gameweeks) ∧
    (∀ f ∈ data, f.event = some (current_gw + gameweeks - 1) →
      f.finished = false →
      toFixtureData f (current_gw + gameweeks - 1)
        ∈ filterFixtures data current_gw gameweeks) ∧
    (∀ fd ∈ filterFixtures data current_gw gameweeks,
      fd.gameweek ≠ current_gw + gameweeks) ∧
    filterFixtures data current_gw gameweeks
      = filterFixtures (data.filter (fun f => f.finished = false))
          current_gw gameweeks := by
  refine ⟨?_, ?_, ?_, ?_⟩
  · unfold get_upcoming_fixtures
    rw [hcache]
    unfold fetch_fixtures_fresh
    rw [hresp]
    rcases hg : get_current_gameweek w st with ⟨r, st'⟩
    rw [hg] at hgw
    simp only [] at hgw
    subst hgw
    rfl
  · intro f hf hev hfin
    unfold filterFixtures
    rw [List.mem_filterMap]
    refine ⟨f, hf, ?_⟩
    rw [hev]
    dsimp only
    rw [if_pos ⟨by omega, by omega, le_refl _, hfin⟩]
  · intro fd hfd
    unfold filterFixtures at hfd
    rw [List.mem_filterMap] at hfd
    obtain ⟨f, hf, hsome⟩ := hfd
    revert hsome
    cases hev : f.event with
    | none => intro hsome; simp at hsome
    | some e =>
      dsimp only
      by_cases hcond : e ≠ 0 ∧ current_gw ≤ e ∧
          e ≤ current_gw + gameweeks - 1 ∧ f.finished = false
      · rw [if_pos hcond]
        intro hsome
        have hfd2 := Option.some.inj hsome
        have : fd.gameweek = e := by rw [← hfd2]; rfl
        omega
      · rw [if_neg hcond]
        intro hsome
        simp at hsome
  · unfold filterFixtures
    exact filterMap_filter_finished _
      (fun f hf => by cases hev : f.event <;> simp [hev, hf]) data

/-- An unfinished fixture at gameweek 5 (inside a window of 3 from 5). -/
def rawFix5 : RawFixture :=
  { event := some 5, finished := false, team_h := 1, team_a := 2,
    team_h_difficulty := 2, team_a_difficulty := 3,
    kickoff_time := "k1".toList }

/-- An unfinished fixture at gameweek 7 (the exact upper boundary). -/
def rawFix7 : RawFixture :=
  { event := some 7, finished := false, team_h := 3, team_a := 4,
    team_h_difficulty := 4, team_a_difficulty := 2,
    kickoff_time := "k2".toList }

/-- A finished fixture at gameweek 7. -/
def rawFix7fin : RawFixture :=
  { event := some 7, finished := true, team_h := 5, team_a := 6,
    team_h_difficulty := 3, team_a_difficulty := 3,
    kickoff_time := "k3".toList }

/-- An unfinished fixture at gameweek 8 (just past the window). -/
def rawFix8 : RawFixture :=
  { event := some 8, finished := false, team_h := 7, team_a := 8,
    team_h_difficulty := 2, team_a_difficulty := 2,
    kickoff_time := "k4".toList }

/-- The boundary-scenario fixtures response. -/
def fixDataW : List RawFixture := [rawFix5, rawFix7, rawFix7fin, rawFix8]

/-- A world serving the boundary scenario with gameweek 5 current. -/
def wBoundary : World :=
  { wOk with bootstrap_resp := .ok bootCur5, fixtures_resp := .ok fixDataW }

/-- Witness for C3 at the boundary scenario (current gameweek 5, window
3): the fetch returns the filter's output, the boundary gameweek-7 fixture
is included, the gameweek-8 fixture is not, and finished fixtures never
contribute. -/
theorem fixture_window_exact_witness :
    (get_upcoming_fixtures wBoundary 3 stEmpty).1
      = .ok (filterFixtures fixDataW 5 3) ∧
    toFixtureData rawFix7 7 ∈ filterFixtures fixDataW 5 3 ∧
    toFixtureData rawFix8 8 ∉ filterFixtures fixDataW 5 3 ∧
    filterFixtures fixDataW 5 3
      = filterFixtures (fixDataW.filter (fun f => f.finished = false)) 5 3 := by
  have h := fixture_window_exact wBoundary stEmpty fixDataW 5 3 rfl rfl
    (by rfl) (by norm_num) (by norm_num)
  refine ⟨h.1, ?_, ?_, h.2.2.2⟩
  · have h7 := h.2.1 rawFix7 (by simp [fixDataW]) (by rfl) rfl
    simpa using h7
  · intro hmem
    exact h.2.2.1 (toFixtureData rawFix8 8) hmem (by norm_num [toFixtureData])

/-! ## C5: the record mapper maps exactly the allow-listed ids -/

theorem parseFloat_decimal (ip fp : List Char) (hip : ip ≠ [])
    (hfp : fp ≠ []) (hipd : ∀ c ∈ ip, c.isDigit = true)
    (hfpd : ∀ c ∈ fp, c.isDigit = true) :
    parseFloat (ip ++ '.' :: fp)
      = (digitsToNat ip : ℚ)
        + (digitsToNat fp : ℚ) / (10 : ℚ) ^ fp.length := by
  obtain ⟨ht, hd⟩ :=
    takeWhile_append_stop Char.isDigit ip fp '.' hipd (by decide)
  unfold parseFloat
  rw [ht, hd]
  show (if ip ≠ [] ∧ fp ≠ [] ∧ fp.all Char.isDigit = true
      then (digitsToNat (ip ++ fp) : ℚ) / (10 : ℚ) ^ fp.length else 0)
    = (digitsToNat ip : ℚ) + (digitsToNat fp : ℚ) / (10 : ℚ) ^ fp.length
  rw [if_pos ⟨hip, hfp, List.all_eq_true.mpr hfpd⟩, digitsToNat_append]
  have hpow : ((10 : ℚ) ^ fp.length) ≠ 0 := by positivity
  push_cast
  field_simp

theorem parseFloat_example : parseFloat "7.5".toList = 15 / 2 := by
  have h75 := parseFloat_decimal ['7'] ['5'] (by decide) (by decide)
    (by decide) (by decide)
  have hs : "7.5".toList = ['7'] ++ '.' :: ['5'] := rfl
  have d7 : digitsToNat ['7'] = 7 := by decide
  have d5 : digitsToNat ['5'] = 5 := by decide
  rw [hs, h75, d7, d5]
  norm_num

theorem gppd_keys_mem (elements : List PlayerRaw) (teams : List TeamRaw)
    (positions : List PositionRaw) (player_ids : List ℤ) (k : ℤ) :
    k ∈ dictKeys
        (get_player_performance_data elements teams positions player_ids)
      ↔ (∃ p ∈ elements, p.id = k) ∧ k ∈ player_ids := by
  suffices h : ∀ acc : List (ℤ × PlayerData),
      k ∈ dictKeys (elements.foldl (gppdStep teams positions player_ids) acc)
        ↔ k ∈ dictKeys acc
          ∨ ((∃ p ∈ elements, p.id = k) ∧ k ∈ player_ids) by
    have h0 := h []
    unfold get_player_performance_data
    rw [h0]
    simp [dictKeys]
  intro acc
  induction elements generalizing acc with
  | nil => simp
  | cons p t ih =>
    rw [List.foldl_cons, ih]
    unfold gppdStep
    by_cases hp : p.id ∈ player_ids
    · rw [if_pos hp]
      constructor
      · rintro (hk | hrest)
        · rcases (dictKeys_dictInsert acc p.id _ k).mp hk with hk2 | hk2
          · exact .inl hk2
          · exact .inr ⟨⟨p, List.mem_cons_self p t, hk2.symm⟩, hk2 ▸ hp⟩
        · obtain ⟨⟨q, hq, hqid⟩, hkin⟩ := hrest
          exact .inr ⟨⟨q, List.mem_cons_of_mem p hq, hqid⟩, hkin⟩
      · rintro (hk | ⟨⟨q, hq, hqid⟩, hkin⟩)
        · exact .inl ((dictKeys_dictInsert acc p.id _ k).mpr (.inl hk))
        · rcases List.mem_cons.mp hq with rfl | hq2
          · exact .inl ((dictKeys_dictInsert acc q.id _ k).mpr (.inr hqid.symm))
          · exact .inr ⟨⟨q, hq2, hqid⟩, hkin⟩
    · rw [if_neg hp]
      constructor
      · rintro (hk | ⟨⟨q, hq, hqid⟩, hkin⟩)
        · exact .inl hk
        · exact .inr ⟨⟨q, List.mem_cons_of_mem p hq, hqid⟩, hkin⟩
      · rintro (hk | ⟨⟨q, hq, hqid⟩, hkin⟩)
        · exact .inl hk
        · rcases List.mem_cons.mp hq with rfl | hq2
          · exact absurd (hqid ▸ hkin) hp
          · exact .inr ⟨⟨q, hq2, hqid⟩, hkin⟩

theorem gppd_lookup_mem (elements : List PlayerRaw) (teams : List TeamRaw)
    (positions : List PositionRaw) (player_ids : List ℤ) (k : ℤ)
    (v : PlayerData) :
    dictLookup
        (get_player_performance_data elements teams positions player_ids) k
      = some v →
    ∃ p ∈ elements, p.id = k ∧ v = mkPlayerData teams positions p := by
  suffices h : ∀ acc : List (ℤ × PlayerData),
      dictLookup (elements.foldl (gppdStep teams positions player_ids) acc) k
        = some v →
      dictLookup acc k = some v
        ∨ ∃ p ∈ elements, p.id = k ∧ v = mkPlayerData teams positions p by
    intro hl
    rcases h [] hl with h1 | h2
    · simp [dictLookup, List.find?] at h1
    · exact h2
  intro acc
  induction elements generalizing acc with
  | nil => intro hl; exact .inl hl
  | cons p t ih =>
    intro hl
    rw [List.foldl_cons] at hl
    rcases ih (gppdStep teams positions player_ids acc p) hl with h1 | h2
    · unfold gppdStep at h1
      by_cases hp : p.id ∈ player_ids
      · rw [if_pos hp, dictLookup_dictInsert] at h1
        by_cases hk : k = p.id
        · rw [if_pos hk] at h1
          exact .inr ⟨p, List.mem_cons_self p t, hk.symm,
            (Option.some.inj h1).symm⟩
        · rw [if_neg hk] at h1
          exact .inl h1
      · rw [if_neg hp] at h1
        exact .inl h1
    · obtain ⟨q, hq, hqid, hqv⟩ := h2
      exact .inr ⟨q, List.mem_cons_of_mem p hq, hqid, hqv⟩

/-- C5: the mapper's key set is exactly the catalog ids lying in the
allow-list; every mapped record is the `PlayerData` built from the
catalog entry with that id; and the string-typed numeric fields are
coerced by `parseFloat` to the exact decimal value they denote (no
precision loss), e.g. `"7.5"` to `15/2`. -/
theorem player_mapping_exact (elements : List PlayerRaw)
    (teams : List TeamRaw) (positions : List PositionRaw)
    (player_ids : List ℤ) :
    (∀ k, k ∈ dictKeys
        (get_player_performance_data elements teams positions player_ids)
      ↔ (∃ p ∈ elements, p.id = k) ∧ k ∈ player_ids) ∧
    (∀ k v, dictLookup
        (get_player_performance_data elements teams positions player_ids) k
        = some v →
      ∃ p ∈ elements, p.id = k ∧ v = mkPlayerData teams positions p) ∧
    (∀ p : PlayerRaw,
      (mkPlayerData teams positions p).form = parseFloat p.form ∧
      (mkPlayerData teams positions p).points_per_game
        = parseFloat p.points_per_game ∧
      (mkPlayerData teams positions p).selected_by_percent
        = parseFloat p.selected_by_percent) ∧
    (∀ ip fp : List Char, ip ≠ [] → fp ≠ [] →
      (∀ c ∈ ip, c.isDigit = true) → (∀ c ∈ fp, c.isDigit = true) →
      parseFloat (ip ++ '.' :: fp)
        = (digitsToNat ip : ℚ)
          + (digitsToNat fp : ℚ) / (10 : ℚ) ^ fp.length) ∧
    parseFloat "7.5".toList = 15 / 2 := by
  refine ⟨fun k => gppd_keys_mem elements teams positions player_ids k,
    fun k v => gppd_lookup_mem elements teams positions player_ids k v,
    ?_, fun ip fp hip hfp hipd hfpd =>
      parseFloat_decimal ip fp hip hfp hipd hfpd, parseFloat_example⟩
  intro p
  exact ⟨rfl, rfl, rfl⟩

/-- A raw catalog entry with id `i` and the decimal string stats of the
running example. -/
def praw (i : ℤ) : PlayerRaw :=
  { id := i, first_name := "A".toList, second_name := "B".toList,
    team := 1, element_type := 1, now_cost := 50, total_points := 10,
    form := "7.5".toList, points_per_game := "4.2".toList,
    selected_by_percent := "12.3".toList, goals_scored := 1, assists := 2,
    clean_sheets := 0, minutes := 90, bonus := 1,
    chance_of_playing_next_round := none, news := [],
    transfers_in_event := 0, transfers_out_event := 0,
    cost_change_event := 0 }

/-- A two-player catalog; only id 10 is in the allow-list. -/
def elementsW : List PlayerRaw := [praw 10, praw 20]

/-- Witness for C5: id 10 (in catalog and allow-list) is mapped, id 20 (in
catalog, not allow-listed) is not, and the coercion examples compute. -/
theorem player_mapping_exact_witness :
    (10 : ℤ) ∈ dictKeys (get_player_performance_data elementsW [] [] [10, 99])
      ∧
    (20 : ℤ) ∉ dictKeys (get_player_performance_data elementsW [] [] [10, 99])
      ∧
    parseFloat "7.5".toList = 15 / 2 ∧
    parseFloat ("4".toList ++ '.' :: "25".toList)
      = (digitsToNat "4".toList : ℚ)
        + (digitsToNat "25".toList : ℚ) / (10 : ℚ) ^ "25".toList.length := by
  have h := player_mapping_exact elementsW [] [] [10, 99]
  refine ⟨(h.1 10).mpr (by decide), ?_, h.2.2.2.2, ?_⟩
  · intro hmem
    have h20 := (h.1 20).mp hmem
    revert h20
    decide
  · exact h.2.2.2.1 "4".toList "25".toList (by decide) (by decide)
      (by decide) (by decide)

/-! ## C6: bench picks are excluded from the candidate section -/

/-- C6: with one pick per squad member (no duplicated elements) and stats
keyed by squad ids, an id reaches the eligible-candidate section of the
prompt iff it has a mapped record and its pick's multiplier is at least 1;
in particular every multiplier-0 (bench) pick is excluded. -/
theorem bench_picks_excluded (stats : List (ℤ × PlayerData))
    (picks : List Pick)
    (hnd : (picks.map Pick.element).Nodup)
    (hsub : ∀ k ∈ dictKeys stats, k ∈ picks.map Pick.element) :
    ∀ pid, pid ∈ eligibleIds stats picks ↔
      pid ∈ dictKeys stats
        ∧ ∃ pk ∈ picks, pk.element = pid ∧ 1 ≤ pk.multiplier := by
  intro pid
  unfold eligibleIds eligible_stats
  constructor
  · intro hmem
    rw [List.mem_map] at hmem
    obtain ⟨kv, hkv, hfst⟩ := hmem
    rw [List.mem_filter] at hkv
    obtain ⟨hkvs, hmult⟩ := hkv
    rw [decide_eq_true_eq] at hmult
    subst hfst
    have hkey : kv.1 ∈ dictKeys stats := List.mem_map_of_mem Prod.fst hkvs
    refine ⟨hkey, ?_⟩
    have hin := hsub kv.1 hkey
    rw [List.mem_map] at hin
    obtain ⟨pk0, hpk0, hel0⟩ := hin
    have hs : (picks.find? (fun p => p.element == kv.1)).isSome :=
      List.find?_isSome.mpr ⟨pk0, hpk0, by simp [beq_iff_eq, hel0]⟩
    obtain ⟨pk1, hpk1⟩ := Option.isSome_iff_exists.mp hs
    have hel1 : pk1.element = kv.1 := by
      have := List.find?_some hpk1
      simpa [beq_iff_eq] using this
    have hmem1 : pk1 ∈ picks := List.mem_of_find?_eq_some hpk1
    have hval : multiplierOf picks kv.1 = pk1.multiplier := by
      unfold multiplierOf
      rw [hpk1]
    exact ⟨pk1, hmem1, hel1, by rw [← hval]; exact hmult⟩
  · rintro ⟨hkey, pk, hpk, hel, hmul⟩
    have hkey2 := hkey
    unfold dictKeys at hkey2
    rw [List.mem_map] at hkey2
    obtain ⟨kv, hkv, hfst⟩ := hkey2
    rw [List.mem_map]
    refine ⟨kv, ?_, hfst⟩
    rw [List.mem_filter]
    refine ⟨hkv, ?_⟩
    rw [decide_eq_true_eq]
    have hs : (picks.find? (fun p => p.element == kv.1)).isSome :=
      List.find?_isSome.mpr ⟨pk, hpk, by simp [beq_iff_eq, hel, hfst]⟩
    obtain ⟨pk1, hpk1⟩ := Option.isSome_iff_exists.mp hs
    have hel1 : pk1.element = kv.1 := by
      have := List.find?_some hpk1
      simpa [beq_iff_eq] using this
    have hmem1 : pk1 ∈ picks := List.mem_of_find?_eq_some hpk1
    have heq : pk1 = pk := by
      apply List.inj_on_of_nodup_map hnd hmem1 hpk
      rw [hel1, hfst, hel]
    have hval : multiplierOf picks kv.1 = pk1.multiplier := by
      unfold multiplierOf
      rw [hpk1]
    rw [hval, heq]
    exact hmul

/-- A placeholder mapped record with id `i`. -/
def pdataW (i : ℤ) : PlayerData :=
  ⟨i, [], [], [], 0, 0, 0, 0, 0, 0, 0, 0, 0, 0, 0⟩

/-- Player stats for a 15-member squad, ids 0 through 14. -/
def statsW : List (ℤ × PlayerData) :=
  (List.range 15).map (fun i => ((i : ℤ), pdataW (i : ℤ)))

/-- A squad of 15 picks: ids 0 through 10 starting (multiplier 1), ids 11
through 14 benched (multiplier 0). -/
def picksW : List Pick :=
  (List.range 15).map (fun i => ⟨(i : ℤ), if i < 11 then 1 else 0⟩)

/-- Witness for C6 on the 11-starters / 4-bench squad: starter id 3 is
eligible, bench id 12 is not. -/
theorem bench_picks_excluded_witness :
    (3 : ℤ) ∈ eligibleIds statsW picksW
      ∧ (12 : ℤ) ∉ eligibleIds statsW picksW := by
  have h := bench_picks_excluded statsW picksW (by decide) (by decide)
  constructor
  · exact (h 3).mpr (by decide)
  · intro hmem
    have h12 := (h 12).mp hmem
    revert h12
    decide

/-! ## C1: the shape returned when response parsing fails -/

/-- A world whose model answers with a brace-delimited substring that is
not valid JSON. -/
def wBadJson : World := { wOk with llm := fun _ => .ok ['{', 'x', '}'] }

/-- C1 counterexample: a response text on which the primary parse and the
fallback parse both fail, yet the result is the outer handler's
`(error, team_id)` dict — the fallback's `json.loads` raises out of the
inner handler — not the `(error, raw_response)` dict the claim predicts
for every doubly-failing text. -/
theorem parse_error_shape_counterexample :
    parseJson ['{', 'x', '}'] = none ∧
    extractBraces ['{', 'x', '}'] = some ['{', 'x', '}'] ∧
    (get_captain_recommendations wBadJson 7 stEmpty).1
      = .caught Err.jsonDecode 7 ∧
    RecResult.caught Err.jsonDecode 7
      ≠ RecResult.parseFailure ['{', 'x', '}'] :=
  ⟨rfl, rfl, rfl, fun h => RecResult.noConfusion h⟩

/-- C1 (amended): when the model's response fails the primary parse and
the brace-extraction regex finds no match at all, the function returns the
structured `(error: "Failed to parse LLM response", raw_response)` dict
rather than raising. -/
theorem parse_error_shape (w : World) (team_id : ℤ) (st : ClientState)
    (prompt content : List Char)
    (h1 : (build_prompt_stage w team_id st).1 = .ok prompt)
    (h2 : w.llm prompt = .ok content)
    (h3 : parseJson content = none)
    (h4 : extractBraces content = none) :
    (get_captain_recommendations w team_id st).1
      = .parseFailure content := by
  unfold get_captain_recommendations recommend_core
  rcases hb : build_prompt_stage w team_id st with ⟨r, st'⟩
  rw [hb] at h1
  have h1' : r = Except.ok prompt := h1
  subst h1'
  dsimp only
  rw [h2]
  dsimp only
  unfold parse_llm_response
  rw [h3, h4]

/-- The prompt text the gather stage of `wOk` produces for team 7. -/
def promptW : List Char :=
  match (build_prompt_stage wOk 7 stEmpty).1 with
  | .ok p => p
  | .error _ => []

/-- Witness for C1 (amended): the model's brace-free prose answer is
returned inside the structured parse-failure dict. -/
theorem parse_error_shape_witness :
    (get_captain_recommendations wOk 7 stEmpty).1
      = .parseFailure "hello".toList :=
  parse_error_shape wOk 7 stEmpty promptW "hello".toList rfl rfl rfl rfl

/-! ## C7: pure JSON versus prose-wrapped JSON -/

/-- C7 counterexample: wrapping the JSON object in the bracket characters
(leading prose with no open brace, trailing prose with no close brace,
exactly one brace-delimited object embedded) yields a body that is itself
valid JSON, so the primary parse returns the surrounding array — a
different structure from the bare object's parse. -/
theorem parser_wrapping_counterexample :
    parseJson ['{', '}'] = some (JVal.obj []) ∧
    parseJson ['[', '{', '}', ']'] = some (JVal.arr [JVal.obj []]) ∧
    parse_llm_response ['{', '}'] = .ok (.recs (JVal.obj [])) ∧
    parse_llm_response ['[', '{', '}', ']']
      = .ok (.recs (JVal.arr [JVal.obj []])) ∧
    ('{' ∉ (['['] : List Char)) ∧ ('}' ∉ (([']']) : List Char)) ∧
    JVal.arr [JVal.obj []] ≠ JVal.obj [] :=
  ⟨rfl, rfl, rfl, rfl, by decide, by decide, fun h => JVal.noConfusion h⟩

/-- C7 (amended): a body that is exactly one JSON object parses to the
same structure as that body wrapped in leading prose without an open brace
and trailing prose without a close brace, provided the wrapped body is not
itself valid JSON (otherwise the primary parse returns the surrounding
document instead). -/
theorem parser_prose_wrapping (p s0 q : List Char) (J : JVal)
    (hs : parseJson ('{' :: s0 ++ ['}']) = some J)
    (hp : '{' ∉ p) (hq : '}' ∉ q)
    (hw : parseJson (p ++ ('{' :: s0 ++ ['}']) ++ q) = none) :
    parse_llm_response (p ++ ('{' :: s0 ++ ['}']) ++ q)
      = .ok (.recs J) ∧
    parse_llm_response ('{' :: s0 ++ ['}']) = .ok (.recs J) := by
  constructor
  · unfold parse_llm_response
    rw [hw]
    have hdrop : (p ++ ('{' :: s0 ++ ['}']) ++ q).dropWhile
        (fun c => c ≠ '{') = '{' :: (s0 ++ ['}'] ++ q) := by
      rw [List.append_assoc]
      rw [dropWhile_append_all _ p _
        (fun c hc => by simp only [ne_eq, decide_eq_true_eq]
                        exact fun hh => hp (hh ▸ hc))]
      rw [show ('{' :: s0 ++ ['}']) ++ q = '{' :: (s0 ++ ['}'] ++ q) by
        simp]
      rw [List.dropWhile_cons]
      simp
    have hx : extractBraces (p ++ ('{' :: s0 ++ ['}']) ++ q)
        = some ('{' :: s0 ++ ['}']) := by
      unfold extractBraces
      rw [hdrop]
      dsimp only
      rw [if_pos (by simp)]
      have hrev : ('{' :: (s0 ++ ['}'] ++ q)).reverse
          = q.reverse ++ ('}' :: (s0.reverse ++ ['{'])) := by
        simp
      rw [hrev, dropWhile_append_all _ q.reverse _
        (fun c hc => by simp only [ne_eq, decide_eq_true_eq]
                        exact fun hh =>
                          hq (hh ▸ (List.mem_reverse.mp hc)))]
      rw [List.dropWhile_cons]
      simp
    rw [hx]
    dsimp only
    rw [hs]
  · unfold parse_llm_response
    rw [hs]

/-- Leading prose with no brace characters. -/
def proseP : List Char := "Here you go: ".toList

/-- Trailing prose with no brace characters. -/
def proseQ : List Char := " Thanks!".toList

/-- Witness for C7 (amended) on the empty JSON object wrapped in the
spec's example prose. -/
theorem parser_prose_wrapping_witness :
    parse_llm_response (proseP ++ ('{' :: [] ++ ['}']) ++ proseQ)
      = .ok (.recs (JVal.obj [])) ∧
    parse_llm_response ('{' :: [] ++ ['}']) = .ok (.recs (JVal.obj [])) :=
  parser_prose_wrapping proseP [] proseQ (JVal.obj []) rfl (by decide)
    (by decide) (by rfl)

end FPLCaptain
